import Mathlib

/-!
Verification model of the anythingllm-auth token lifecycle
(`anythingllm_auth/utils.py` and `anythingllm_auth/auth.py`).

Machine conventions used throughout:
* Python exceptions are modelled with `Except`; the exception taxonomy of
  `exceptions.py` becomes the inductive `AuthError` (the classes
  `AuthenticationError` and `APIError` are siblings there, neither is a
  subclass of the other, so an `except AuthenticationError` clause does not
  catch an `APIError`).
* The network is modelled as a `World`: one queue of pending outcomes per
  endpoint kind (login, refresh, arbitrary target endpoint).  Every network
  call pops the head of its queue; the number of network calls an operation
  performs is therefore the number of queue entries it consumes.  An empty
  queue answers with a transport error.
* `time.time()` and the configured expiry buffer are non-negative and are
  modelled as `Nat` (seconds); JSON numbers, hence the `exp` claim, as `Int`.
* Floating point `exp` values are outside the model: the JSON number
  grammar below accepts exactly the integer numerals.
-/

/-! Section 1: base64url decoding, modelling
`base64.urlsafe_b64decode` as used by `is_token_expired` (utils.py 41).
`urlsafe_b64decode` translates the characters - and _ to + and / and then
decodes with the standard alphabet, so both alphabets are accepted.  We
model the strict core of the decoder: inputs that the strict core rejects
are exactly the inputs on which Python either raises `binascii.Error` or
produces bytes that are not valid JSON, and in either case
`is_token_expired` answers `True`, so the observable behaviour through the
fail-closed wrapper agrees. -/

/-- Value of one base64 character in the urlsafe (and standard) alphabet. -/
def b64CharVal (c : Char) : Option Nat :=
  if 'A' ≤ c ∧ c ≤ 'Z' then some (c.toNat - 65)
  else if 'a' ≤ c ∧ c ≤ 'z' then some (c.toNat - 97 + 26)
  else if '0' ≤ c ∧ c ≤ '9' then some (c.toNat - 48 + 52)
  else if c = '-' ∨ c = '+' then some 62
  else if c = '_' ∨ c = '/' then some 63
  else none

/-- Decode base64 text four characters at a time; padding (= signs) may only
occur at the end, closing the final group.  Trailing bits hidden by padding
are discarded, as Python's decoder does. -/
def b64DecodeAux : List Char → Option (List Nat)
  | [] => some []
  | c1 :: c2 :: c3 :: c4 :: rest =>
    match b64CharVal c1, b64CharVal c2 with
    | some v1, some v2 =>
      if c3 = '=' then
        if c4 = '=' ∧ rest = [] then some [v1 * 4 + v2 / 16] else none
      else
        match b64CharVal c3 with
        | some v3 =>
          if c4 = '=' then
            if rest = [] then some [v1 * 4 + v2 / 16, v2 % 16 * 16 + v3 / 4] else none
          else
            match b64CharVal c4, b64DecodeAux rest with
            | some v4, some tail =>
              some ((v1 * 4 + v2 / 16) :: (v2 % 16 * 16 + v3 / 4) :: (v3 % 4 * 64 + v4) :: tail)
            | _, _ => none
        | none => none
    | _, _ => none
  | _ => none

/-- Models `base64.urlsafe_b64decode` applied to a padded payload string,
producing the byte sequence. -/
def urlsafe_b64decode (s : String) : Option (List Nat) :=
  b64DecodeAux s.toList

/-! Section 2: JSON values and a parser modelling `json.loads`
as used by `is_token_expired` (utils.py 42).  The parser follows the JSON
grammar accepted by Python's `json` module, restricted to integer numerals
(see the header note on floats) and to ASCII payload bytes (a JWT claim set
is ASCII; for ASCII input the UTF-8 decode performed by `json.loads` on a
bytes argument is the identity). -/

/-- JSON values as produced by `json.loads`. -/
inductive Json where
  | null : Json
  | bool (b : Bool) : Json
  | num (n : Int) : Json
  | str (s : String) : Json
  | arr (elems : List Json) : Json
  | obj (members : List (String × Json)) : Json

/-- Python dict construction keeps the last of duplicate keys, so `d.get(k)`
answers the last member with key `k`. -/
def getLastVal : List (String × Json) → String → Option Json
  | [], _ => none
  | kv :: rest, key =>
    match getLastVal rest key with
    | some v => some v
    | none => if kv.1 = key then some kv.2 else none

/-- JSON insignificant whitespace. -/
def isJsonWs (c : Char) : Bool :=
  c = ' ' ∨ c = '\t' ∨ c = '\n' ∨ c = '\r'

/-- Drop leading JSON whitespace. -/
def skipWs : List Char → List Char
  | [] => []
  | c :: cs => if isJsonWs c then skipWs cs else c :: cs

/-- Value of a hexadecimal digit. -/
def hexVal (c : Char) : Option Nat :=
  if '0' ≤ c ∧ c ≤ '9' then some (c.toNat - 48)
  else if 'a' ≤ c ∧ c ≤ 'f' then some (c.toNat - 97 + 10)
  else if 'A' ≤ c ∧ c ≤ 'F' then some (c.toNat - 65 + 10)
  else none

/-- Single-character JSON string escapes. -/
def jsonEscape (c : Char) : Option Char :=
  if c = '"' then some '"'
  else if c = '\\' then some '\\'
  else if c = '/' then some '/'
  else if c = 'b' then some (Char.ofNat 8)
  else if c = 'f' then some (Char.ofNat 12)
  else if c = 'n' then some '\n'
  else if c = 'r' then some '\r'
  else if c = 't' then some '\t'
  else none

/-- Parse the body of a JSON string after its opening quote, returning the
characters and the rest of the input. -/
def parseJStringAux : Nat → List Char → Option (List Char × List Char)
  | 0, _ => none
  | _, [] => none
  | fuel + 1, c :: rest =>
    if c = '"' then some ([], rest)
    else if c = '\\' then
      match rest with
      | [] => none
      | e :: rest2 =>
        if e = 'u' then
          match rest2 with
          | h1 :: h2 :: h3 :: h4 :: rest3 =>
            match hexVal h1, hexVal h2, hexVal h3, hexVal h4 with
            | some a, some b, some c3, some d =>
              match parseJStringAux fuel rest3 with
              | some (cs, rem) =>
                some (Char.ofNat (a * 4096 + b * 256 + c3 * 16 + d) :: cs, rem)
              | none => none
            | _, _, _, _ => none
          | _ => none
        else
          match jsonEscape e with
          | some ec =>
            match parseJStringAux fuel rest2 with
            | some (cs, rem) => some (ec :: cs, rem)
            | none => none
          | none => none
    else if c.toNat < 32 then none
    else
      match parseJStringAux fuel rest with
      | some (cs, rem) => some (c :: cs, rem)
      | none => none

/-- Longest digit run at the head of the input. -/
def spanDigits : List Char → List Char × List Char
  | [] => ([], [])
  | c :: cs =>
    if '0' ≤ c ∧ c ≤ '9' then
      let p := spanDigits cs
      (c :: p.1, p.2)
    else ([], c :: cs)

/-- Numeric value of a digit run. -/
def digitsToNat : List Char → Nat
  | [] => 0
  | c :: cs => (c.toNat - 48) * 10 ^ cs.length + digitsToNat cs

/-- Parse a JSON integer numeral: optional minus sign, then `0` or a nonzero
leading digit run, not followed by a fraction or exponent part (a float
numeral is outside the model, see the header). -/
def parseJInt (cs : List Char) : Option (Int × List Char) :=
  let sign : Bool := cs.head? = some '-'
  let cs1 := if sign then cs.tail else cs
  let p := spanDigits cs1
  match p.1 with
  | [] => none
  | d :: ds =>
    if d = '0' ∧ ds ≠ [] then none
    else
      match p.2 with
      | c :: _ => if c = '.' ∨ c = 'e' ∨ c = 'E' then none
                  else some (if sign then -(digitsToNat p.1 : Int) else (digitsToNat p.1 : Int), p.2)
      | [] => some (if sign then -(digitsToNat p.1 : Int) else (digitsToNat p.1 : Int), p.2)

/-- Opening brace character (written via its code point). -/
def lbrace : Char := Char.ofNat 123

/-- Closing brace character (written via its code point). -/
def rbrace : Char := Char.ofNat 125

mutual

/-- Parse one JSON value (fuelled; the fuel bounds the nesting depth and is
instantiated with the input length, which dominates it). -/
def parseValue : Nat → List Char → Option (Json × List Char)
  | 0, _ => none
  | fuel + 1, input =>
    match skipWs input with
    | [] => none
    | c :: rest =>
      if c = 'n' then
        match rest with
        | 'u' :: 'l' :: 'l' :: rem => some (Json.null, rem)
        | _ => none
      else if c = 't' then
        match rest with
        | 'r' :: 'u' :: 'e' :: rem => some (Json.bool true, rem)
        | _ => none
      else if c = 'f' then
        match rest with
        | 'a' :: 'l' :: 's' :: 'e' :: rem => some (Json.bool false, rem)
        | _ => none
      else if c = '"' then
        match parseJStringAux rest.length rest with
        | some (cs, rem) => some (Json.str (String.mk cs), rem)
        | none => none
      else if c = '[' then
        match skipWs rest with
        | ']' :: rem => some (Json.arr [], rem)
        | rest2 =>
          match parseElems fuel rest2 with
          | some (es, rem) => some (Json.arr es, rem)
          | none => none
      else if c = lbrace then
        match skipWs rest with
        | [] => none
        | c2 :: rem =>
          if c2 = rbrace then some (Json.obj [], rem)
          else
            match parseMembers fuel (c2 :: rem) with
            | some (ms, rem2) => some (Json.obj ms, rem2)
            | none => none
      else
        match parseJInt (c :: rest) with
        | some (n, rem) => some (Json.num n, rem)
        | none => none

/-- Parse the comma-separated elements of a nonempty JSON array, consuming
the closing bracket. -/
def parseElems : Nat → List Char → Option (List Json × List Char)
  | 0, _ => none
  | fuel + 1, input =>
    match parseValue fuel input with
    | some (v, rem) =>
      match skipWs rem with
      | ',' :: rem2 =>
        match parseElems fuel rem2 with
        | some (vs, rem3) => some (v :: vs, rem3)
        | none => none
      | ']' :: rem2 => some ([v], rem2)
      | _ => none
    | none => none

/-- Parse the members of a nonempty JSON object, consuming the closing
brace. -/
def parseMembers : Nat → List Char → Option (List (String × Json) × List Char)
  | 0, _ => none
  | fuel + 1, input =>
    match skipWs input with
    | [] => none
    | c :: rest =>
      if c = '"' then
        match parseJStringAux rest.length rest with
        | some (kcs, rem) =>
          match skipWs rem with
          | ':' :: rem2 =>
            match parseValue fuel rem2 with
            | some (v, rem3) =>
              match skipWs rem3 with
              | ',' :: rem4 =>
                match parseMembers fuel rem4 with
                | some (ms, rem5) => some ((String.mk kcs, v) :: ms, rem5)
                | none => none
              | cend :: rem4 =>
                if cend = rbrace then some ([(String.mk kcs, v)], rem4) else none
              | [] => none
            | none => none
          | _ => none
        | none => none
      else none

end

/-- Models `json.loads` on a bytes argument: UTF-8 decode (restricted to
ASCII, see the section header), then parse exactly one JSON value padded by
whitespace. -/
def json_loads (bs : List Nat) : Option Json :=
  if bs.all (fun b => decide (b < 128)) then
    let cs := bs.map Char.ofNat
    match parseValue (cs.length + 1) cs with
    | some (v, rem) => if skipWs rem = [] then some v else none
    | none => none
  else none

/-! Section 3: the expiry oracle `is_token_expired` (utils.py 17-54). -/

/-- Split a character list at every occurrence of the separator, keeping
empty segments, as Python's `str.split` with an explicit separator does. -/
def splitOnChar (sep : Char) : List Char → List (List Char)
  | [] => [[]]
  | c :: cs =>
    let r := splitOnChar sep cs
    if c = sep then [] :: r
    else
      match r with
      | [] => [[c]]
      | g :: gs => (c :: g) :: gs

/-- Models Python `token.split('.')` (utils.py 30). -/
def pySplitDot (token : String) : List String :=
  (splitOnChar '.' token.toList).map (fun g => String.mk g)

/-- Steps of utils.py lines 30-42: split the token on dots, require exactly
three segments, restore base64 padding on the middle segment, base64-decode
it and parse the bytes as JSON.  `none` is any failure on the way, each of
which the source maps to `True` through its catch-all handler. -/
def tokenPayloadData (token : String) : Option Json :=
  match pySplitDot token with
  | [_hdr, payload0, _sig] =>
    let padding := payload0.length % 4
    let payload := if padding ≠ 0 then payload0 ++ String.mk (List.replicate (4 - padding) '=') else payload0
    match urlsafe_b64decode payload with
    | some decoded => json_loads decoded
    | none => none
  | _ => none

/-- Step of utils.py line 45, `payload_data.get('exp')`: answers the `exp`
member when the payload parsed to a dict that has one.  `none` covers a
failed decode, a payload that is not a dict (where `.get` raises
`AttributeError`, swallowed by the catch-all), and an absent `exp` key. -/
def expClaim (token : String) : Option Json :=
  match tokenPayloadData token with
  | some (Json.obj members) => getLastVal members "exp"
  | _ => none

/-- Models utils.py `is_token_expired(token, buffer_seconds)` evaluated at
`current_time = time.time()`.  The branches mirror the source: any decode or
lookup failure answers `True`; line 46 `if not exp` makes every falsy claim
value (`None`, `0`, `False`, the empty string) answer `True`; a numeric
claim is compared as `current_time + buffer_seconds >= exp` (Python `True`
compares as `1`); a comparison with a non-numeric claim raises `TypeError`,
which the catch-all maps to `True`. -/
def is_token_expired (token : String) (buffer_seconds : Nat) (current_time : Nat) : Bool :=
  match expClaim token with
  | none => true
  | some Json.null => true
  | some (Json.num n) =>
    if n = 0 then true else decide ((current_time : Int) + buffer_seconds ≥ n)
  | some (Json.bool b) =>
    if b then decide ((current_time : Int) + buffer_seconds ≥ 1) else true
  | some (Json.str _) => true
  | some (Json.arr _) => true
  | some (Json.obj _) => true

/-- Models utils.py `format_auth_header(token, prefix)`. -/
def format_auth_header (token : String) (pfx : String) : String :=
  pfx ++ " " ++ token

/-! Section 4: the client model (`anythingllm_auth/auth.py`).
Only the configuration fields that the modelled operations read are kept:
the header name, the header value prefix and the expiry buffer.  URL
construction and transport settings are external collaborators that the
claims do not touch. -/

/-- Configuration fields read by the modelled operations
(config.py: token_header, token_prefix, token_expiry_buffer). -/
structure Config where
  token_header : String
  token_prefix : String
  token_expiry_buffer : Nat

/-- Python truthiness of an optional string: `None` and the empty string are
falsy. -/
def pyTruthy : Option String → Bool
  | none => false
  | some s => !s.isEmpty

/-- State of `TokenManager` (auth.py 20-62).  The attributes
`_token_expires_at` and `_user_info` are never read by any modelled
operation and are omitted. -/
structure TokenManager where
  _token : Option String
  _refresh_token : Option String
deriving DecidableEq

/-- Property `TokenManager.token` (auth.py 31-33). -/
def TokenManager.token (tm : TokenManager) : Option String :=
  tm._token

/-- Property `TokenManager.refresh_token` (auth.py 36-38). -/
def TokenManager.refresh_token (tm : TokenManager) : Option String :=
  tm._refresh_token

/-- Alias for the module-level oracle, usable inside the `TokenManager`
namespace where the short name would denote the property being defined. -/
def utils_is_token_expired : String → Nat → Nat → Bool :=
  is_token_expired

/-- Property `TokenManager.is_token_expired` (auth.py 46-50): falsy stored
token means expired, otherwise ask the oracle with the configured buffer. -/
def TokenManager.is_token_expired (cfg : Config) (tm : TokenManager) (current_time : Nat) : Bool :=
  match tm._token with
  | none => true
  | some t => if t.isEmpty then true else utils_is_token_expired t cfg.token_expiry_buffer current_time

/-- Property `TokenManager.is_authenticated` (auth.py 41-43). -/
def TokenManager.is_authenticated (cfg : Config) (tm : TokenManager) (current_time : Nat) : Bool :=
  tm._token.isSome && !(TokenManager.is_token_expired cfg tm current_time)

/-- Method `TokenManager.set_tokens` (auth.py 52-55): overwrites both stored
values; the refresh argument defaults to `None` at call sites that omit
it. -/
def TokenManager.set_tokens (tm : TokenManager) (token : String) (refresh : Option String) : TokenManager :=
  { tm with _token := some token, _refresh_token := refresh }

/-- Method `TokenManager.clear_tokens` (auth.py 57-62). -/
def TokenManager.clear_tokens (_tm : TokenManager) : TokenManager :=
  { _token := none, _refresh_token := none }

/-- Parsed JSON body of a login or refresh response, projected to the two
fields the client reads (`data.get("token")`, `data.get("refreshToken")`).
`none` models an absent field. -/
structure TokenBody where
  token : Option String
  refreshToken : Option String
deriving DecidableEq

/-- Outcome of one POST to the login or refresh endpoint:
either an HTTP response with a status and parsed body, or a transport
error (`requests.RequestException` / `aiohttp.ClientError`). -/
inductive AuthNetResult where
  | resp (status : Nat) (data : TokenBody)
  | transportError
deriving DecidableEq

/-- An HTTP response from an arbitrary target endpoint; the envelope only
reads the status and hands the rest back to the caller unchanged, so the
body is opaque. -/
structure HttpResponse where
  status : Nat
  body : String
deriving DecidableEq

/-- Outcome of one call to a target endpoint. -/
inductive ReqNetResult where
  | resp (r : HttpResponse)
  | transportError
deriving DecidableEq

/-- Pending network outcomes, one queue per endpoint kind.  A network call
pops the head of its queue; an exhausted queue answers with a transport
error. -/
structure World where
  loginResults : List AuthNetResult
  refreshResults : List AuthNetResult
  requestResults : List ReqNetResult
deriving DecidableEq

/-- Pop the next login outcome. -/
def popLogin (w : World) : AuthNetResult × World :=
  match w.loginResults with
  | [] => (AuthNetResult.transportError, w)
  | r :: rest => (r, { w with loginResults := rest })

/-- Pop the next refresh outcome. -/
def popRefresh (w : World) : AuthNetResult × World :=
  match w.refreshResults with
  | [] => (AuthNetResult.transportError, w)
  | r :: rest => (r, { w with refreshResults := rest })

/-- Pop the next target-endpoint outcome. -/
def popRequest (w : World) : ReqNetResult × World :=
  match w.requestResults with
  | [] => (ReqNetResult.transportError, w)
  | r :: rest => (r, { w with requestResults := rest })

/-- The raised-exception taxonomy of exceptions.py, restricted to the kinds
the modelled operations raise.  These are sibling classes: a handler for
one kind does not catch another. -/
inductive AuthError where
  | authenticationError (msg : String)
  | apiError (msg : String)
  | tokenValidationError (msg : String)
deriving DecidableEq

/-- Method `AuthClient.authenticate` (auth.py 75-125): POST the credentials
to the login endpoint; on 200 read `token` (falsy means
`AuthenticationError` without mutation) and store the pair via
`set_tokens`; 401 is `AuthenticationError`; any other status or a
transport error is `APIError`. -/
def AuthClient.authenticate (tm : TokenManager) (w : World) :
    Except AuthError String × TokenManager × World :=
  match popLogin w with
  | (AuthNetResult.transportError, w1) =>
    (Except.error (AuthError.apiError "Failed to authenticate"), tm, w1)
  | (AuthNetResult.resp status data, w1) =>
    if status = 200 then
      match data.token with
      | some t =>
        if t.isEmpty then
          (Except.error (AuthError.authenticationError "No token received in response"), tm, w1)
        else
          (Except.ok t, TokenManager.set_tokens tm t data.refreshToken, w1)
      | none =>
        (Except.error (AuthError.authenticationError "No token received in response"), tm, w1)
    else if status = 401 then
      (Except.error (AuthError.authenticationError "Invalid username or password"), tm, w1)
    else
      (Except.error (AuthError.apiError "Authentication failed"), tm, w1)

/-- Method `AuthClient.refresh_token` (auth.py 127-175): a falsy stored
refresh value raises `AuthenticationError` before any network call;
otherwise POST to the refresh endpoint; on 200 the new refresh value is
`data.get("refreshToken", current)` — the stored one is retained when the
response omits the field — and a falsy `token` raises without mutation;
401 is `AuthenticationError`; other statuses and transport errors are
`APIError`. -/
def AuthClient.refresh_token (tm : TokenManager) (w : World) :
    Except AuthError String × TokenManager × World :=
  if pyTruthy (TokenManager.refresh_token tm) = false then
    (Except.error (AuthError.authenticationError "No refresh token available"), tm, w)
  else
    match popRefresh w with
    | (AuthNetResult.transportError, w1) =>
      (Except.error (AuthError.apiError "Failed to refresh token"), tm, w1)
    | (AuthNetResult.resp status data, w1) =>
      if status = 200 then
        let refreshKept : Option String :=
          match data.refreshToken with
          | some rt => some rt
          | none => TokenManager.refresh_token tm
        match data.token with
        | some t =>
          if t.isEmpty then
            (Except.error (AuthError.authenticationError "No token received in refresh response"), tm, w1)
          else
            (Except.ok t, TokenManager.set_tokens tm t refreshKept, w1)
        | none =>
          (Except.error (AuthError.authenticationError "No token received in refresh response"), tm, w1)
      else if status = 401 then
        (Except.error (AuthError.authenticationError "Refresh token expired or invalid"), tm, w1)
      else
        (Except.error (AuthError.apiError "Token refresh failed"), tm, w1)

/-- Method `AuthClient.ensure_valid_token` (auth.py 219-238): a falsy stored
token raises `AuthenticationError`; an unexpired one is returned with no
network call; otherwise `refresh_token()` runs and only an
`AuthenticationError` from it is re-wrapped as "Token expired and refresh
failed" — an `APIError` from the refresh propagates unchanged, since
`except AuthenticationError` does not catch the sibling class. -/
def AuthClient.ensure_valid_token (cfg : Config) (tm : TokenManager) (w : World) (current_time : Nat) :
    Except AuthError String × TokenManager × World :=
  match tm._token with
  | none => (Except.error (AuthError.authenticationError "No token available"), tm, w)
  | some t =>
    if t.isEmpty then
      (Except.error (AuthError.authenticationError "No token available"), tm, w)
    else if TokenManager.is_token_expired cfg tm current_time = false then
      (Except.ok t, tm, w)
    else
      match AuthClient.refresh_token tm w with
      | (Except.error (AuthError.authenticationError _), tm1, w1) =>
        (Except.error (AuthError.authenticationError "Token expired and refresh failed"), tm1, w1)
      | other => other

deriving instance DecidableEq for Except

/-- Result of one `make_authenticated_request` run: the returned response or
raised error, the final token state and world, and the value of the
configured auth header on each call made to the target endpoint, in
order. -/
structure RequestOutcome where
  result : Except AuthError HttpResponse
  tm : TokenManager
  world : World
  sentAuthHeaders : List String
deriving DecidableEq

/-- Method `AuthClient.make_authenticated_request` (auth.py 240-299):
ensure a valid token (errors propagate), attach the configured header,
execute; on a 401 run `refresh_token()` once — an `AuthenticationError`
from it becomes `AuthenticationError("Authentication expired")`, an
`APIError` propagates uncaught — and on refresh success rebuild the header
from the new token and re-execute exactly once, returning that second
response as-is; a non-401 first response is returned as-is; a transport
error on either execution is `APIError` via the outer handler. -/
def AuthClient.make_authenticated_request (cfg : Config) (tm : TokenManager) (w : World) (current_time : Nat) :
    RequestOutcome :=
  match AuthClient.ensure_valid_token cfg tm w current_time with
  | (Except.error e, tm1, w1) => ⟨Except.error e, tm1, w1, []⟩
  | (Except.ok token, tm1, w1) =>
    let hdr1 := format_auth_header token cfg.token_prefix
    match popRequest w1 with
    | (ReqNetResult.transportError, w2) =>
      ⟨Except.error (AuthError.apiError "API request failed"), tm1, w2, [hdr1]⟩
    | (ReqNetResult.resp r1, w2) =>
      if r1.status = 401 then
        match AuthClient.refresh_token tm1 w2 with
        | (Except.ok token2, tm2, w3) =>
          let hdr2 := format_auth_header token2 cfg.token_prefix
          match popRequest w3 with
          | (ReqNetResult.transportError, w4) =>
            ⟨Except.error (AuthError.apiError "API request failed"), tm2, w4, [hdr1, hdr2]⟩
          | (ReqNetResult.resp r2, w4) =>
            ⟨Except.ok r2, tm2, w4, [hdr1, hdr2]⟩
        | (Except.error (AuthError.authenticationError _), tm2, w3) =>
          ⟨Except.error (AuthError.authenticationError "Authentication expired"), tm2, w3, [hdr1]⟩
        | (Except.error e, tm2, w3) =>
          ⟨Except.error e, tm2, w3, [hdr1]⟩
      else
        ⟨Except.ok r1, tm1, w2, [hdr1]⟩

/-! Section 5: the non-blocking client (`AsyncAuthClient`, auth.py
322-549).  Its operations duplicate the blocking client's control flow
statement for statement, with `aiohttp.ClientError` in place of
`requests.RequestException` as the transport error; both are modelled by
the same `transportError` outcome, and awaiting does not change the
sequential semantics of a single call, so each embedding below has the
same body as its blocking counterpart. -/

/-- Method `AsyncAuthClient.authenticate` (auth.py 352-391). -/
def AsyncAuthClient.authenticate (tm : TokenManager) (w : World) :
    Except AuthError String × TokenManager × World :=
  match popLogin w with
  | (AuthNetResult.transportError, w1) =>
    (Except.error (AuthError.apiError "Failed to authenticate"), tm, w1)
  | (AuthNetResult.resp status data, w1) =>
    if status = 200 then
      match data.token with
      | some t =>
        if t.isEmpty then
          (Except.error (AuthError.authenticationError "No token received in response"), tm, w1)
        else
          (Except.ok t, TokenManager.set_tokens tm t data.refreshToken, w1)
      | none =>
        (Except.error (AuthError.authenticationError "No token received in response"), tm, w1)
    else if status = 401 then
      (Except.error (AuthError.authenticationError "Invalid username or password"), tm, w1)
    else
      (Except.error (AuthError.apiError "Authentication failed"), tm, w1)

/-- Method `AsyncAuthClient.refresh_token` (auth.py 393-434). -/
def AsyncAuthClient.refresh_token (tm : TokenManager) (w : World) :
    Except AuthError String × TokenManager × World :=
  if pyTruthy (TokenManager.refresh_token tm) = false then
    (Except.error (AuthError.authenticationError "No refresh token available"), tm, w)
  else
    match popRefresh w with
    | (AuthNetResult.transportError, w1) =>
      (Except.error (AuthError.apiError "Failed to refresh token"), tm, w1)
    | (AuthNetResult.resp status data, w1) =>
      if status = 200 then
        let refreshKept : Option String :=
          match data.refreshToken with
          | some rt => some rt
          | none => TokenManager.refresh_token tm
        match data.token with
        | some t =>
          if t.isEmpty then
            (Except.error (AuthError.authenticationError "No token received in refresh response"), tm, w1)
          else
            (Except.ok t, TokenManager.set_tokens tm t refreshKept, w1)
        | none =>
          (Except.error (AuthError.authenticationError "No token received in refresh response"), tm, w1)
      else if status = 401 then
        (Except.error (AuthError.authenticationError "Refresh token expired or invalid"), tm, w1)
      else
        (Except.error (AuthError.apiError "Token refresh failed"), tm, w1)

/-- Method `AsyncAuthClient.ensure_valid_token` (auth.py 468-479). -/
def AsyncAuthClient.ensure_valid_token (cfg : Config) (tm : TokenManager) (w : World) (current_time : Nat) :
    Except AuthError String × TokenManager × World :=
  match tm._token with
  | none => (Except.error (AuthError.authenticationError "No token available"), tm, w)
  | some t =>
    if t.isEmpty then
      (Except.error (AuthError.authenticationError "No token available"), tm, w)
    else if TokenManager.is_token_expired cfg tm current_time = false then
      (Except.ok t, tm, w)
    else
      match AsyncAuthClient.refresh_token tm w with
      | (Except.error (AuthError.authenticationError _), tm1, w1) =>
        (Except.error (AuthError.authenticationError "Token expired and refresh failed"), tm1, w1)
      | other => other

/-- Method `AsyncAuthClient.make_authenticated_request` (auth.py 481-527). -/
def AsyncAuthClient.make_authenticated_request (cfg : Config) (tm : TokenManager) (w : World) (current_time : Nat) :
    RequestOutcome :=
  match AsyncAuthClient.ensure_valid_token cfg tm w current_time with
  | (Except.error e, tm1, w1) => ⟨Except.error e, tm1, w1, []⟩
  | (Except.ok token, tm1, w1) =>
    let hdr1 := format_auth_header token cfg.token_prefix
    match popRequest w1 with
    | (ReqNetResult.transportError, w2) =>
      ⟨Except.error (AuthError.apiError "API request failed"), tm1, w2, [hdr1]⟩
    | (ReqNetResult.resp r1, w2) =>
      if r1.status = 401 then
        match AsyncAuthClient.refresh_token tm1 w2 with
        | (Except.ok token2, tm2, w3) =>
          let hdr2 := format_auth_header token2 cfg.token_prefix
          match popRequest w3 with
          | (ReqNetResult.transportError, w4) =>
            ⟨Except.error (AuthError.apiError "API request failed"), tm2, w4, [hdr1, hdr2]⟩
          | (ReqNetResult.resp r2, w4) =>
            ⟨Except.ok r2, tm2, w4, [hdr1, hdr2]⟩
        | (Except.error (AuthError.authenticationError _), tm2, w3) =>
          ⟨Except.error (AuthError.authenticationError "Authentication expired"), tm2, w3, [hdr1]⟩
        | (Except.error e, tm2, w3) =>
          ⟨Except.error e, tm2, w3, [hdr1]⟩
      else
        ⟨Except.ok r1, tm1, w2, [hdr1]⟩

/-- The two authenticate embeddings coincide (the source bodies are
duplicates). -/
theorem async_authenticate_eq : AsyncAuthClient.authenticate = AuthClient.authenticate :=
  rfl

/-- The two refresh embeddings coincide. -/
theorem async_refresh_eq : AsyncAuthClient.refresh_token = AuthClient.refresh_token :=
  rfl

/-- The two ensure embeddings coincide. -/
theorem async_ensure_eq : AsyncAuthClient.ensure_valid_token = AuthClient.ensure_valid_token :=
  rfl

/-- The two request-envelope embeddings coincide. -/
theorem async_request_eq : AsyncAuthClient.make_authenticated_request = AuthClient.make_authenticated_request :=
  rfl

/-- Semantics of a `try ... except AuthenticationError: raise
AuthenticationError(msg)` block around a failing call: an
AuthenticationError is replaced by the fixed message, any sibling error
class passes through unchanged. -/
def wrapAuthOnly (msg : String) : AuthError → AuthError
  | AuthError.authenticationError _ => AuthError.authenticationError msg
  | x => x

/-! Section 6: claim theorems. -/

/-- C7: for every session state with no stored refresh value, refresh_token
(blocking and non-blocking alike) raises AuthenticationError immediately,
performs zero network calls (the world is unchanged) and leaves the stored
token state unchanged. -/
theorem refresh_without_refresh_value_is_immediate_error
    (tm : TokenManager) (w : World) (h : tm._refresh_token = none) :
    AuthClient.refresh_token tm w
      = (Except.error (AuthError.authenticationError "No refresh token available"), tm, w) ∧
    AsyncAuthClient.refresh_token tm w
      = (Except.error (AuthError.authenticationError "No refresh token available"), tm, w) := by
  have hp : pyTruthy (TokenManager.refresh_token tm) = false := by
    simp [TokenManager.refresh_token, h, pyTruthy]
  refine ⟨?_, ?_⟩ <;>
    simp [AuthClient.refresh_token, AsyncAuthClient.refresh_token, hp]

/-- Witness for C7 at a concrete session and a world holding a pending
refresh response that must stay untouched. -/
theorem refresh_without_refresh_value_is_immediate_error_witness :
    AuthClient.refresh_token ⟨some "tok", none⟩
        ⟨[], [AuthNetResult.resp 200 ⟨some "new", none⟩], []⟩
      = (Except.error (AuthError.authenticationError "No refresh token available"),
         ⟨some "tok", none⟩, ⟨[], [AuthNetResult.resp 200 ⟨some "new", none⟩], []⟩) ∧
    AsyncAuthClient.refresh_token ⟨some "tok", none⟩
        ⟨[], [AuthNetResult.resp 200 ⟨some "new", none⟩], []⟩
      = (Except.error (AuthError.authenticationError "No refresh token available"),
         ⟨some "tok", none⟩, ⟨[], [AuthNetResult.resp 200 ⟨some "new", none⟩], []⟩) :=
  refresh_without_refresh_value_is_immediate_error _ _ rfl

/-- C8: authenticate on a 200 response carrying token "abc" and refreshToken
"def" stores exactly that pair and returns "abc"; authenticate on a 200
response with an empty body raises AuthenticationError and leaves the
session state exactly as before, in both clients. -/
theorem authenticate_success_stores_and_malformed_preserves
    (tm : TokenManager) (lq : List AuthNetResult) (rq : List AuthNetResult) (qq : List ReqNetResult) :
    (AuthClient.authenticate tm ⟨AuthNetResult.resp 200 ⟨some "abc", some "def"⟩ :: lq, rq, qq⟩
       = (Except.ok "abc", ⟨some "abc", some "def"⟩, ⟨lq, rq, qq⟩)) ∧
    (AuthClient.authenticate tm ⟨AuthNetResult.resp 200 ⟨none, none⟩ :: lq, rq, qq⟩
       = (Except.error (AuthError.authenticationError "No token received in response"), tm, ⟨lq, rq, qq⟩)) ∧
    (AsyncAuthClient.authenticate tm ⟨AuthNetResult.resp 200 ⟨some "abc", some "def"⟩ :: lq, rq, qq⟩
       = (Except.ok "abc", ⟨some "abc", some "def"⟩, ⟨lq, rq, qq⟩)) ∧
    (AsyncAuthClient.authenticate tm ⟨AuthNetResult.resp 200 ⟨none, none⟩ :: lq, rq, qq⟩
       = (Except.error (AuthError.authenticationError "No token received in response"), tm, ⟨lq, rq, qq⟩)) := by
  refine ⟨?_, ?_, ?_, ?_⟩ <;>
    simp [AuthClient.authenticate, AsyncAuthClient.authenticate, popLogin,
      TokenManager.set_tokens] <;> decide

/-- C9: a successful refresh whose 200 body omits the refreshToken field
stores the new access token while retaining the previous refresh value
unchanged; when the body does supply one, the stored refresh value is
replaced by it — in both clients. -/
theorem refresh_retains_or_replaces_refresh_value
    (tm : TokenManager) (rt t newRt : String)
    (hrt : tm._refresh_token = some rt) (hrtne : rt.isEmpty = false) (htne : t.isEmpty = false)
    (lq : List AuthNetResult) (rest : List AuthNetResult) (qq : List ReqNetResult) :
    (AuthClient.refresh_token tm ⟨lq, AuthNetResult.resp 200 ⟨some t, none⟩ :: rest, qq⟩
       = (Except.ok t, ⟨some t, some rt⟩, ⟨lq, rest, qq⟩)) ∧
    (AuthClient.refresh_token tm ⟨lq, AuthNetResult.resp 200 ⟨some t, some newRt⟩ :: rest, qq⟩
       = (Except.ok t, ⟨some t, some newRt⟩, ⟨lq, rest, qq⟩)) ∧
    (AsyncAuthClient.refresh_token tm ⟨lq, AuthNetResult.resp 200 ⟨some t, none⟩ :: rest, qq⟩
       = (Except.ok t, ⟨some t, some rt⟩, ⟨lq, rest, qq⟩)) ∧
    (AsyncAuthClient.refresh_token tm ⟨lq, AuthNetResult.resp 200 ⟨some t, some newRt⟩ :: rest, qq⟩
       = (Except.ok t, ⟨some t, some newRt⟩, ⟨lq, rest, qq⟩)) := by
  refine ⟨?_, ?_, ?_, ?_⟩ <;>
    simp [AuthClient.refresh_token, AsyncAuthClient.refresh_token, popRefresh,
      TokenManager.set_tokens, TokenManager.refresh_token, hrt, htne, pyTruthy, hrtne]

/-- Witness for C9 at a concrete session and refresh responses. -/
theorem refresh_retains_or_replaces_refresh_value_witness :
    (AuthClient.refresh_token ⟨some "old", some "keepme"⟩
        ⟨[], [AuthNetResult.resp 200 ⟨some "fresh", none⟩], []⟩
       = (Except.ok "fresh", ⟨some "fresh", some "keepme"⟩, ⟨[], [], []⟩)) ∧
    (AuthClient.refresh_token ⟨some "old", some "keepme"⟩
        ⟨[], [AuthNetResult.resp 200 ⟨some "fresh", some "newer"⟩], []⟩
       = (Except.ok "fresh", ⟨some "fresh", some "newer"⟩, ⟨[], [], []⟩)) ∧
    (AsyncAuthClient.refresh_token ⟨some "old", some "keepme"⟩
        ⟨[], [AuthNetResult.resp 200 ⟨some "fresh", none⟩], []⟩
       = (Except.ok "fresh", ⟨some "fresh", some "keepme"⟩, ⟨[], [], []⟩)) ∧
    (AsyncAuthClient.refresh_token ⟨some "old", some "keepme"⟩
        ⟨[], [AuthNetResult.resp 200 ⟨some "fresh", some "newer"⟩], []⟩
       = (Except.ok "fresh", ⟨some "fresh", some "newer"⟩, ⟨[], [], []⟩)) :=
  refresh_retains_or_replaces_refresh_value _ "keepme" "fresh" "newer" rfl rfl rfl _ _ _

/-- C10: a successful authenticate whose 200 body omits refreshToken stores
the new access value and sets the stored refresh value to absent, even when
one was stored before the call (authenticate calls set_tokens with the
plain `data.get("refreshToken")`, which is None for an absent field, unlike
refresh_token's defaulted get). -/
theorem authenticate_clears_absent_refresh_value
    (tm : TokenManager) (prevRt : String) (_hprev : tm._refresh_token = some prevRt)
    (t : String) (htne : t.isEmpty = false)
    (lq : List AuthNetResult) (rq : List AuthNetResult) (qq : List ReqNetResult) :
    AuthClient.authenticate tm ⟨AuthNetResult.resp 200 ⟨some t, none⟩ :: lq, rq, qq⟩
      = (Except.ok t, ⟨some t, none⟩, ⟨lq, rq, qq⟩) := by
  simp [AuthClient.authenticate, popLogin, TokenManager.set_tokens, htne]

/-- Witness for C10: a previously stored refresh value disappears. -/
theorem authenticate_clears_absent_refresh_value_witness :
    AuthClient.authenticate ⟨some "old", some "previous"⟩
        ⟨[AuthNetResult.resp 200 ⟨some "fresh", none⟩], [], []⟩
      = (Except.ok "fresh", ⟨some "fresh", none⟩, ⟨[], [], []⟩) :=
  authenticate_clears_absent_refresh_value _ "previous" rfl "fresh" rfl _ _ _

/-- C4: on every token whose middle segment decodes to a claim map with a
numeric exp claim, is_token_expired answers exactly the comparison
currentTime + bufferSeconds >= exp — true for exp in the past or within the
buffer, false for exp beyond the buffer.  (At exp = 0 the source returns
True through its falsy-claim branch, which agrees with the comparison since
time and buffer are non-negative.) -/
theorem token_with_numeric_exp_obeys_buffer_rule
    (token : String) (n : Int) (hn : expClaim token = some (Json.num n))
    (buffer_seconds current_time : Nat) :
    is_token_expired token buffer_seconds current_time
      = decide ((current_time : Int) + (buffer_seconds : Int) ≥ n) := by
  unfold is_token_expired
  rw [hn]
  by_cases h0 : n = 0
  · subst h0
    have hpos : ((0 : Int) ≤ (current_time : Int) + (buffer_seconds : Int)) := by positivity
    simp [ge_iff_le, hpos]
  · simp [h0]

/-- Witness for C4: a token whose payload is the claim map with exp 1000,
checked on both sides of the buffer boundary. -/
theorem token_with_numeric_exp_obeys_buffer_rule_witness :
    expClaim "h.eyJleHAiOjEwMDB9.s" = some (Json.num 1000) ∧
    is_token_expired "h.eyJleHAiOjEwMDB9.s" 300 0
      = decide ((0 : Int) + (300 : Int) ≥ 1000) ∧
    is_token_expired "h.eyJleHAiOjEwMDB9.s" 300 700
      = decide ((700 : Int) + (300 : Int) ≥ 1000) :=
  ⟨rfl, token_with_numeric_exp_obeys_buffer_rule "h.eyJleHAiOjEwMDB9.s" 1000 rfl 300 0,
    token_with_numeric_exp_obeys_buffer_rule "h.eyJleHAiOjEwMDB9.s" 1000 rfl 300 700⟩

/-- C5: on every malformed input — wrong number of dot segments, a middle
segment that does not base64-decode or whose bytes are not a JSON value, or
a claim map without an exp member — is_token_expired answers true.  The
never-raises half of the claim is carried by the embedding being a total
function whose every failure branch is explicit. -/
theorem malformed_token_reports_expired
    (token : String) (buffer_seconds current_time : Nat)
    (h : (pySplitDot token).length ≠ 3 ∨ tokenPayloadData token = none ∨ expClaim token = none) :
    is_token_expired token buffer_seconds current_time = true := by
  have hnone : expClaim token = none := by
    rcases h with h | h | h
    · have htpd : tokenPayloadData token = none := by
        unfold tokenPayloadData
        rcases hs : pySplitDot token with _ | ⟨a, _ | ⟨b, _ | ⟨c, _ | ⟨d, tl⟩⟩⟩⟩ <;>
          first
            | rfl
            | (exact absurd (by rw [hs]; rfl) h)
      unfold expClaim
      rw [htpd]
    · unfold expClaim
      rw [h]
    · exact h
  unfold is_token_expired
  rw [hnone]

/-- Witness for C5: a one-segment token. -/
theorem malformed_token_reports_expired_witness :
    is_token_expired "not-a-jwt" 300 12345 = true :=
  malformed_token_reports_expired "not-a-jwt" 300 12345 (Or.inl (by decide))

/-- Helper: ensure_valid_token on a stored, locally unexpired token returns
that token and touches neither state nor world. -/
theorem ensure_valid_of_fresh (cfg : Config) (tm : TokenManager) (w : World) (current_time : Nat)
    (t : String) (ht : tm._token = some t) (hne : t.isEmpty = false)
    (hval : TokenManager.is_token_expired cfg tm current_time = false) :
    AuthClient.ensure_valid_token cfg tm w current_time = (Except.ok t, tm, w) := by
  unfold AuthClient.ensure_valid_token
  rw [ht]
  simp [hne, hval]

/-- C6 (amended): when the stored token is expired per the oracle, a refresh
failure raised as AuthenticationError is re-wrapped by ensure_valid_token as
AuthenticationError "token expired and refresh failed"; a refresh failure
raised as APIError propagates unchanged, because the handler only catches
AuthenticationError and the two classes are siblings. -/
theorem ensure_wraps_refresh_failure_by_kind
    (cfg : Config) (tm : TokenManager) (w : World) (current_time : Nat)
    (t : String) (ht : tm._token = some t) (hne : t.isEmpty = false)
    (hexp : TokenManager.is_token_expired cfg tm current_time = true)
    (e : AuthError) (tm2 : TokenManager) (w2 : World)
    (href : AuthClient.refresh_token tm w = (Except.error e, tm2, w2)) :
    AuthClient.ensure_valid_token cfg tm w current_time
      = (Except.error (wrapAuthOnly "Token expired and refresh failed" e), tm2, w2) ∧
    AsyncAuthClient.ensure_valid_token cfg tm w current_time
      = (Except.error (wrapAuthOnly "Token expired and refresh failed" e), tm2, w2) := by
  have main : AuthClient.ensure_valid_token cfg tm w current_time
      = (Except.error (wrapAuthOnly "Token expired and refresh failed" e), tm2, w2) := by
    unfold AuthClient.ensure_valid_token
    rw [ht]
    simp only [hne, hexp]
    cases e <;> rw [href] <;> rfl
  exact ⟨main, by rw [async_ensure_eq]; exact main⟩

/-- Witness for C6 (amended), instantiated with a refresh endpoint that
answers 401, so the refresh failure is an AuthenticationError and the
wrapped error is observed. -/
theorem ensure_wraps_refresh_failure_by_kind_witness :
    AuthClient.ensure_valid_token ⟨"Authorization", "Bearer", 300⟩
        ⟨some "x", some "r"⟩ ⟨[], [AuthNetResult.resp 401 ⟨none, none⟩], []⟩ 0
      = (Except.error (AuthError.authenticationError "Token expired and refresh failed"),
         ⟨some "x", some "r"⟩, ⟨[], [], []⟩) ∧
    AsyncAuthClient.ensure_valid_token ⟨"Authorization", "Bearer", 300⟩
        ⟨some "x", some "r"⟩ ⟨[], [AuthNetResult.resp 401 ⟨none, none⟩], []⟩ 0
      = (Except.error (AuthError.authenticationError "Token expired and refresh failed"),
         ⟨some "x", some "r"⟩, ⟨[], [], []⟩) :=
  ensure_wraps_refresh_failure_by_kind ⟨"Authorization", "Bearer", 300⟩
    ⟨some "x", some "r"⟩ ⟨[], [AuthNetResult.resp 401 ⟨none, none⟩], []⟩ 0
    "x" rfl rfl rfl
    (AuthError.authenticationError "Refresh token expired or invalid")
    ⟨some "x", some "r"⟩ ⟨[], [], []⟩ rfl

/-- Counterexample to C6 as stated: with an expired stored token and a
refresh attempt that dies in transport, the refresh failure is an APIError
and ensure_valid_token returns it raw — not wrapped as
AuthenticationError, contradicting "for any kind of refresh failure". -/
theorem ensure_refresh_api_failure_leaks_raw :
    AuthClient.ensure_valid_token ⟨"Authorization", "Bearer", 300⟩
        ⟨some "x", some "r"⟩ ⟨[], [], []⟩ 0
      = (Except.error (AuthError.apiError "Failed to refresh token"),
         ⟨some "x", some "r"⟩, ⟨[], [], []⟩) := rfl

/-- C2 (amended): after a 401 first response, a refresh failure raised as
AuthenticationError makes the envelope raise
AuthenticationError "Authentication expired"; a refresh failure raised as
APIError propagates unchanged past the AuthenticationError-only handler.
In either case exactly one call reached the target endpoint: there is no
second execution. -/
theorem envelope_refresh_failure_propagation_by_kind
    (cfg : Config) (tm : TokenManager) (current_time : Nat)
    (t : String) (ht : tm._token = some t) (hne : t.isEmpty = false)
    (hval : TokenManager.is_token_expired cfg tm current_time = false)
    (r1 : HttpResponse) (h401 : r1.status = 401)
    (lq rq : List AuthNetResult) (qrest : List ReqNetResult)
    (e : AuthError) (tm2 : TokenManager) (w2 : World)
    (href : AuthClient.refresh_token tm ⟨lq, rq, qrest⟩ = (Except.error e, tm2, w2)) :
    AuthClient.make_authenticated_request cfg tm ⟨lq, rq, ReqNetResult.resp r1 :: qrest⟩ current_time
      = ⟨Except.error (wrapAuthOnly "Authentication expired" e), tm2, w2,
         [format_auth_header t cfg.token_prefix]⟩ ∧
    AsyncAuthClient.make_authenticated_request cfg tm ⟨lq, rq, ReqNetResult.resp r1 :: qrest⟩ current_time
      = ⟨Except.error (wrapAuthOnly "Authentication expired" e), tm2, w2,
         [format_auth_header t cfg.token_prefix]⟩ := by
  have main : AuthClient.make_authenticated_request cfg tm ⟨lq, rq, ReqNetResult.resp r1 :: qrest⟩ current_time
      = ⟨Except.error (wrapAuthOnly "Authentication expired" e), tm2, w2,
         [format_auth_header t cfg.token_prefix]⟩ := by
    unfold AuthClient.make_authenticated_request
    rw [ensure_valid_of_fresh cfg tm _ current_time t ht hne hval]
    simp only [popRequest, h401, if_true]
    cases e <;> rw [href] <;> rfl
  exact ⟨main, by rw [async_request_eq]; exact main⟩

/-- Counterexample to C2 as stated: the first execution answers 401, the
refresh attempt dies in transport (an APIError-kind refresh failure), and
the envelope surfaces APIError — not AuthenticationError, contradicting
"for any failure kind of refresh".  The header log shows the target
endpoint was executed once only. -/
theorem envelope_refresh_api_failure_leaks_raw :
    AuthClient.make_authenticated_request ⟨"Authorization", "Bearer", 300⟩
        ⟨some "h.eyJleHAiOjEwMDB9.s", some "r"⟩
        ⟨[], [AuthNetResult.transportError], [ReqNetResult.resp ⟨401, "denied"⟩]⟩ 0
      = ⟨Except.error (AuthError.apiError "Failed to refresh token"),
         ⟨some "h.eyJleHAiOjEwMDB9.s", some "r"⟩, ⟨[], [], []⟩,
         ["Bearer h.eyJleHAiOjEwMDB9.s"]⟩ := rfl

/-- C1: when the stored token passes the local expiry check, the first
execution answers 401 and the refresh succeeds, the envelope re-executes
the request exactly once with the header rebuilt from the new token —
exactly two calls reach the target endpoint (their auth headers are
logged in order) and exactly one refresh call is made (the refresh queue of
one entry is fully consumed) — and the second response, whatever its
status (a second 401 included), is returned to the caller as-is.  Both
clients behave identically. -/
theorem retry_once_after_401_with_rebuilt_header
    (cfg : Config) (tm : TokenManager) (current_time : Nat)
    (t rt t2 : String) (rt2 : Option String)
    (ht : tm._token = some t) (hrt : tm._refresh_token = some rt)
    (hne : t.isEmpty = false) (hrtne : rt.isEmpty = false) (ht2 : t2.isEmpty = false)
    (hval : TokenManager.is_token_expired cfg tm current_time = false)
    (r1 r2 : HttpResponse) (h401 : r1.status = 401) (lq : List AuthNetResult) :
    AuthClient.make_authenticated_request cfg tm
        ⟨lq, [AuthNetResult.resp 200 ⟨some t2, rt2⟩], [ReqNetResult.resp r1, ReqNetResult.resp r2]⟩
        current_time
      = ⟨Except.ok r2, ⟨some t2, some (rt2.getD rt)⟩, ⟨lq, [], []⟩,
         [format_auth_header t cfg.token_prefix, format_auth_header t2 cfg.token_prefix]⟩ ∧
    AsyncAuthClient.make_authenticated_request cfg tm
        ⟨lq, [AuthNetResult.resp 200 ⟨some t2, rt2⟩], [ReqNetResult.resp r1, ReqNetResult.resp r2]⟩
        current_time
      = ⟨Except.ok r2, ⟨some t2, some (rt2.getD rt)⟩, ⟨lq, [], []⟩,
         [format_auth_header t cfg.token_prefix, format_auth_header t2 cfg.token_prefix]⟩ := by
  have main : AuthClient.make_authenticated_request cfg tm
      ⟨lq, [AuthNetResult.resp 200 ⟨some t2, rt2⟩], [ReqNetResult.resp r1, ReqNetResult.resp r2]⟩
      current_time
      = ⟨Except.ok r2, ⟨some t2, some (rt2.getD rt)⟩, ⟨lq, [], []⟩,
         [format_auth_header t cfg.token_prefix, format_auth_header t2 cfg.token_prefix]⟩ := by
    unfold AuthClient.make_authenticated_request
    rw [ensure_valid_of_fresh cfg tm _ current_time t ht hne hval]
    simp only [popRequest, h401, if_true]
    simp only [AuthClient.refresh_token, TokenManager.refresh_token, hrt, pyTruthy, hrtne,
      popRefresh, TokenManager.set_tokens, ht2]
    cases rt2 <;> simp [popRequest]
  exact ⟨main, by rw [async_request_eq]; exact main⟩

/-- Helper: popping a target-endpoint outcome leaves the refresh queue
untouched. -/
theorem popRequest_refresh_eq (w : World) :
    (popRequest w).2.refreshResults = w.refreshResults := by
  unfold popRequest
  cases hq : w.requestResults <;> rfl

/-- Helper: popping a refresh outcome shortens the refresh queue by at most
one. -/
theorem popRefresh_len (w : World) :
    w.refreshResults.length ≤ (popRefresh w).2.refreshResults.length + 1 := by
  unfold popRefresh
  cases hq : w.refreshResults with
  | nil => simp [hq]
  | cons r rest => simp [hq]

/-- Helper: one refresh_token call consumes at most one pending refresh
outcome. -/
theorem refresh_token_refresh_len (tm : TokenManager) (w : World) :
    w.refreshResults.length ≤ (AuthClient.refresh_token tm w).2.2.refreshResults.length + 1 := by
  have hlen := popRefresh_len w
  unfold AuthClient.refresh_token
  split
  · simp
  · split
    all_goals rename_i heq
    all_goals rw [heq] at hlen
    all_goals simp only [] at hlen
    · simpa using hlen
    · repeat' split
      all_goals simpa using hlen

/-- Helper: ensure_valid_token consumes at most one pending refresh
outcome. -/
theorem ensure_refresh_len (cfg : Config) (tm : TokenManager) (w : World) (current_time : Nat) :
    w.refreshResults.length
      ≤ (AuthClient.ensure_valid_token cfg tm w current_time).2.2.refreshResults.length + 1 := by
  have hb := refresh_token_refresh_len tm w
  unfold AuthClient.ensure_valid_token
  split
  · simp
  · split
    · simp
    · split
      · simp
      · split
        all_goals rename_i heq
        · rw [heq] at hb
          simpa using hb
        · exact hb

/-- C3: a single make_authenticated_request call performs at most two
refresh network calls — at most one proactively inside ensure_valid_token
and at most one reactively after a 401 — in both clients: the pending
refresh queue shrinks by at most two entries on every execution path. -/
theorem at_most_two_refresh_calls_per_request
    (cfg : Config) (tm : TokenManager) (w : World) (current_time : Nat) :
    w.refreshResults.length
      ≤ (AuthClient.make_authenticated_request cfg tm w current_time).world.refreshResults.length + 2 ∧
    w.refreshResults.length
      ≤ (AsyncAuthClient.make_authenticated_request cfg tm w current_time).world.refreshResults.length + 2 := by
  have main : w.refreshResults.length
      ≤ (AuthClient.make_authenticated_request cfg tm w current_time).world.refreshResults.length + 2 := by
    have h1 := ensure_refresh_len cfg tm w current_time
    unfold AuthClient.make_authenticated_request
    split
    all_goals rename_i heqE
    all_goals rw [heqE] at h1
    all_goals simp only [] at h1
    · simpa using Nat.le_trans h1 (by omega)
    · rename_i token tm1 w1
      have h2 := congrArg List.length (popRequest_refresh_eq w1)
      split
      all_goals rename_i heqP
      all_goals rw [heqP] at h2
      all_goals simp only [] at h2
      · simp only []
        omega
      · rename_i r1 w2
        split
        · have h3 := refresh_token_refresh_len tm1 w2
          split
          all_goals rename_i heqR
          all_goals rw [heqR] at h3
          all_goals simp only [] at h3
          · rename_i token2 tm2 w3
            have h4 := congrArg List.length (popRequest_refresh_eq w3)
            split
            all_goals rename_i heqP2
            all_goals rw [heqP2] at h4
            all_goals simp only [] at h4
            all_goals simp only []
            all_goals omega
          · simp only []
            omega
          · simp only []
            omega
        · simp only []
          omega
  refine ⟨main, ?_⟩
  rw [async_request_eq]
  exact main

/-- Witness for C2 (amended): refresh endpoint answers 401, so the refresh
failure is an AuthenticationError and the envelope raises
AuthenticationError "Authentication expired" after a single target call. -/
theorem envelope_refresh_failure_propagation_by_kind_witness :
    AuthClient.make_authenticated_request ⟨"Authorization", "Bearer", 300⟩
        ⟨some "h.eyJleHAiOjEwMDB9.s", some "r0"⟩
        ⟨[], [AuthNetResult.resp 401 ⟨none, none⟩], [ReqNetResult.resp ⟨401, "denied"⟩]⟩ 0
      = ⟨Except.error (AuthError.authenticationError "Authentication expired"),
         ⟨some "h.eyJleHAiOjEwMDB9.s", some "r0"⟩, ⟨[], [], []⟩,
         ["Bearer h.eyJleHAiOjEwMDB9.s"]⟩ ∧
    AsyncAuthClient.make_authenticated_request ⟨"Authorization", "Bearer", 300⟩
        ⟨some "h.eyJleHAiOjEwMDB9.s", some "r0"⟩
        ⟨[], [AuthNetResult.resp 401 ⟨none, none⟩], [ReqNetResult.resp ⟨401, "denied"⟩]⟩ 0
      = ⟨Except.error (AuthError.authenticationError "Authentication expired"),
         ⟨some "h.eyJleHAiOjEwMDB9.s", some "r0"⟩, ⟨[], [], []⟩,
         ["Bearer h.eyJleHAiOjEwMDB9.s"]⟩ :=
  envelope_refresh_failure_propagation_by_kind ⟨"Authorization", "Bearer", 300⟩
    ⟨some "h.eyJleHAiOjEwMDB9.s", some "r0"⟩ 0 "h.eyJleHAiOjEwMDB9.s" rfl rfl rfl
    ⟨401, "denied"⟩ rfl [] [AuthNetResult.resp 401 ⟨none, none⟩] []
    (AuthError.authenticationError "Refresh token expired or invalid")
    ⟨some "h.eyJleHAiOjEwMDB9.s", some "r0"⟩ ⟨[], [], []⟩ rfl

/-- Witness for C1: a locally valid token is rejected remotely once, the
refresh succeeds without a new refresh value, and the retried request's
second response — itself a 401 — is returned as-is after exactly two
target calls and one refresh call. -/
theorem retry_once_after_401_with_rebuilt_header_witness :
    AuthClient.make_authenticated_request ⟨"Authorization", "Bearer", 300⟩
        ⟨some "h.eyJleHAiOjEwMDB9.s", some "r0"⟩
        ⟨[], [AuthNetResult.resp 200 ⟨some "tok2", none⟩],
         [ReqNetResult.resp ⟨401, "first"⟩, ReqNetResult.resp ⟨401, "second"⟩]⟩ 0
      = ⟨Except.ok ⟨401, "second"⟩, ⟨some "tok2", some "r0"⟩, ⟨[], [], []⟩,
         ["Bearer h.eyJleHAiOjEwMDB9.s", "Bearer tok2"]⟩ ∧
    AsyncAuthClient.make_authenticated_request ⟨"Authorization", "Bearer", 300⟩
        ⟨some "h.eyJleHAiOjEwMDB9.s", some "r0"⟩
        ⟨[], [AuthNetResult.resp 200 ⟨some "tok2", none⟩],
         [ReqNetResult.resp ⟨401, "first"⟩, ReqNetResult.resp ⟨401, "second"⟩]⟩ 0
      = ⟨Except.ok ⟨401, "second"⟩, ⟨some "tok2", some "r0"⟩, ⟨[], [], []⟩,
         ["Bearer h.eyJleHAiOjEwMDB9.s", "Bearer tok2"]⟩ :=
  retry_once_after_401_with_rebuilt_header ⟨"Authorization", "Bearer", 300⟩
    ⟨some "h.eyJleHAiOjEwMDB9.s", some "r0"⟩ 0
    "h.eyJleHAiOjEwMDB9.s" "r0" "tok2" none rfl rfl rfl rfl rfl rfl
    ⟨401, "first"⟩ ⟨401, "second"⟩ rfl []
